import Mathlib

/-!
Shallow embedding of the LCVarP variant prioritization engine
(source file LCVarPrio.py) and verification of its specification.

Cells of the ingested table are plain text (the reader uses dtype=str and
na_filter=False), with a possible NaN marker kept in the model because the
field accessor explicitly tests for it.  Numeric semantics of the Python
float operations are modelled in exact fraction arithmetic (PyNum below);
the decimal literals appearing in the scoring thresholds and the
modest-precision values in scope behave identically to IEEE doubles on
every comparison performed by the engine.  String literals such as "inf",
"nan" or underscore-grouped digits, which the Python parsers would accept,
are modelled as parse failures; the engine treats the resulting values as
missing in both cases wherever the claims below touch them.
-/

namespace LCVarP

open List

/-- Cell value of a table: either a NaN-equivalent marker or raw text. -/
inductive Cell where
  | nan : Cell
  | str : String → Cell
deriving DecidableEq, Repr

/-- Model of pd.isna on a cell. -/
def isna : Cell → Bool
  | .nan => true
  | .str _ => false

/-- A row as the ordered association of column name to cell value. -/
abbrev Row := List (String × Cell)

/-- Mapping from semantic field name to the concrete header column bound to it. -/
abbrev ColumnMap := List (String × String)

/-- Check whether pat occurs as a prefix of cs. -/
def matchesAt : List Char → List Char → Bool
  | [], _ => true
  | _ :: _, [] => false
  | p :: ps, c :: cs => p == c && matchesAt ps cs

/-- Check whether pat occurs as a contiguous run anywhere in cs. -/
def hasSubstrAux (pat : List Char) : List Char → Bool
  | [] => matchesAt pat []
  | c :: rest => matchesAt pat (c :: rest) || hasSubstrAux pat rest

/-- Python substring membership test on strings. -/
def hasSubstr (s pat : String) : Bool := hasSubstrAux pat.data s.data

/-- Python str.lower restricted to the ASCII data in scope. -/
def pyLower (s : String) : String := String.mk (s.data.map Char.toLower)

/-- Python str.upper restricted to the ASCII data in scope. -/
def pyUpper (s : String) : String := String.mk (s.data.map Char.toUpper)

/-- Whitespace characters removed by Python str.strip. -/
def pyWhitespace (c : Char) : Bool :=
  c == ' ' || c == '\t' || c == '\n' || c == '\r' || c == '\x0b' || c == '\x0c'

/-- Python str.strip with no arguments. -/
def pyStrip (s : String) : String :=
  String.mk (((s.data.dropWhile pyWhitespace).reverse.dropWhile pyWhitespace).reverse)

/-- Split a character list on a separator character. -/
def splitOnChar (sep : Char) : List Char → List (List Char)
  | [] => [[]]
  | c :: rest =>
    let r := splitOnChar sep rest
    if c == sep then [] :: r
    else
      match r with
      | [] => [[c]]
      | h :: t => (c :: h) :: t

/-- Python str.split on a one-character separator. -/
def pySplit (s : String) (sep : Char) : List String := (splitOnChar sep s.data).map String.mk

/-- Code-point lexicographic comparison of character lists. -/
def strLtB : List Char → List Char → Bool
  | [], [] => false
  | [], _ :: _ => true
  | _ :: _, [] => false
  | a :: as, b :: bs =>
    if a.toNat < b.toNat then true
    else if b.toNat < a.toNat then false
    else strLtB as bs

/-- Python string comparison (strict, lexicographic by code point). -/
def pyStrLt (a b : String) : Bool := strLtB a.data b.data

/-- Numeric value of a run of decimal digits. -/
def parseDigits (cs : List Char) : Nat :=
  cs.foldl (fun n c => n * 10 + (c.toNat - 48)) 0

/-- Exact numeric value as an unreduced fraction with a positive
    denominator; the representation of every number the engine computes. -/
structure PyNum where
  num : Int
  den : ℕ+
deriving DecidableEq

instance : Inhabited PyNum := ⟨⟨0, 1⟩⟩

instance : LT PyNum := ⟨fun a b => a.num * ((b.den : ℕ) : ℤ) < b.num * ((a.den : ℕ) : ℤ)⟩
instance : LE PyNum := ⟨fun a b => a.num * ((b.den : ℕ) : ℤ) ≤ b.num * ((a.den : ℕ) : ℤ)⟩

instance (a b : PyNum) : Decidable (a < b) :=
  inferInstanceAs (Decidable (a.num * ((b.den : ℕ) : ℤ) < b.num * ((a.den : ℕ) : ℤ)))

instance (a b : PyNum) : Decidable (a ≤ b) :=
  inferInstanceAs (Decidable (a.num * ((b.den : ℕ) : ℤ) ≤ b.num * ((a.den : ℕ) : ℤ)))

/-- Python float equality between two values. -/
def PyNum.eqv (a b : PyNum) : Prop := a.num * ((b.den : ℕ) : ℤ) = b.num * ((a.den : ℕ) : ℤ)

instance (a b : PyNum) : Decidable (a.eqv b) := by
  unfold PyNum.eqv; infer_instance

/-- Integer literal as a PyNum. -/
def pyOfInt (n : Int) : PyNum := ⟨n, 1⟩

/-- Fraction literal as a PyNum. -/
def pn (n : Int) (d : ℕ+) : PyNum := ⟨n, d⟩

/-- Model of the Python float constructor on the decimal literals occurring
    in variant tables: optional sign, digits with an optional fractional
    part, optional exponent.  Failure (ValueError) is the none case. -/
def pyFloat (s : String) : Option PyNum :=
  let cs := (pyStrip s).data
  let (sgn, cs1) : Int × List Char :=
    match cs with
    | '+' :: r => (1, r)
    | '-' :: r => (-1, r)
    | r => (1, r)
  let ip := cs1.takeWhile Char.isDigit
  let cs2 := cs1.dropWhile Char.isDigit
  let (fp, cs3) : List Char × List Char :=
    match cs2 with
    | '.' :: r => (r.takeWhile Char.isDigit, r.dropWhile Char.isDigit)
    | r => ([], r)
  if ip.isEmpty && fp.isEmpty then none
  else
    let expPart : Option (Int × List Char) :=
      match cs3 with
      | [] => some (0, [])
      | 'e' :: r =>
        let (esgn, r2) : Int × List Char :=
          match r with
          | '+' :: r3 => (1, r3)
          | '-' :: r3 => (-1, r3)
          | r3 => (1, r3)
        let ed := r2.takeWhile Char.isDigit
        if ed.isEmpty then none else some (esgn * parseDigits ed, r2.dropWhile Char.isDigit)
      | 'E' :: r =>
        let (esgn, r2) : Int × List Char :=
          match r with
          | '+' :: r3 => (1, r3)
          | '-' :: r3 => (-1, r3)
          | r3 => (1, r3)
        let ed := r2.takeWhile Char.isDigit
        if ed.isEmpty then none else some (esgn * parseDigits ed, r2.dropWhile Char.isDigit)
      | _ => none
    match expPart with
    | none => none
    | some (ex, rest) =>
      if rest.isEmpty then
        let mant : Int := sgn * ((parseDigits ip : Int) * (10 : Int) ^ fp.length + (parseDigits fp : Int))
        let base : ℕ+ := (10 : ℕ+) ^ fp.length
        if 0 ≤ ex then some ⟨mant * (10 : Int) ^ ex.toNat, base⟩
        else some ⟨mant, base * (10 : ℕ+) ^ (-ex).toNat⟩
      else none

/-- Model of the Python int constructor: optional sign and a nonempty digit
    run, nothing else.  Failure (ValueError) is the none case. -/
def pyInt (s : String) : Option Int :=
  let cs := (pyStrip s).data
  let (sgn, cs1) : Int × List Char :=
    match cs with
    | '+' :: r => (1, r)
    | '-' :: r => (-1, r)
    | r => (1, r)
  let d := cs1.takeWhile Char.isDigit
  if d.isEmpty then none
  else if (cs1.dropWhile Char.isDigit).isEmpty then some (sgn * parseDigits d)
  else none

/-- Built-in table mapping each semantic field to its candidate header names,
    in priority order (column_patterns in _map_columns). -/
def column_patterns : List (String × List String) :=
  [("ACMG", ["ACMG", "acmg", "ACMG Classification"]),
   ("ACMG_Rules", ["ACMG_Rules", "acmg_rules", "ACMG Rules"]),
   ("clinvar", ["clinvar: Clinvar ", "clinvar: Clinvar", "clinvar:", "Clinvar", "clinvar"]),
   ("CLNSIGCONF", ["CLNSIGCONF", "clnsigconf", "ClinVar_conflicting"]),
   ("CADD_phred", ["CADD_phred", "CADD_PHRED", "CADD Phred"]),
   ("SIFT_score", ["SIFT_score", "SIFT Score", "SIFT_Score"]),
   ("gnomAD_freq", ["Freq_gnomAD_genome_ALL", "gnomAD_AF", "gnomAD_freq"]),
   ("esp_freq", ["Freq_esp6500siv2_all", "ESP_freq", "ESP6500_freq"]),
   ("g1000_freq", ["Freq_1000g2015aug_all", "1000g_freq", "1000G_freq"]),
   ("pop_freqs", ["Freq_gnomAD_genome_POPs", "gnomAD_pops", "gnomAD_POPs"]),
   ("GERP", ["GERP++_RS", "GERP_RS", "GERP"]),
   ("phyloP", ["phyloP46way_placental", "phyloP", "PhyloP"]),
   ("ADA_score", ["dbscSNV_ADA_SCORE", "ADA_SCORE", "ada_score"]),
   ("RF_score", ["dbscSNV_RF_SCORE", "RF_SCORE", "rf_score"]),
   ("MetaSVM", ["MetaSVM_score", "metaSVM", "MetaSVM Score"]),
   ("gene", ["ANN[0].GENE", "Gene", "RefGene", "Ref.Gene"]),
   ("effect", ["ANN[0].EFFECT", "Effect", "ExonicFunc", "ExonicFunc.refGene"]),
   ("impact", ["ANN[0].IMPACT", "Impact", "Func.refGene"]),
   ("hgvs_p", ["ANN[0].HGVS_P", "HGVS_P", "AAChange"]),
   ("hgvs_c", ["ANN[0].HGVS_C", "HGVS_C", "GeneDetail"]),
   ("depth", ["DP", "depth", "Coverage"]),
   ("af", ["AF", "alt_freq", "VAF"]),
   ("ad", ["GEN[0].AD", "AD", "Allele Depth"]),
   ("OMIM", ["OMIM", "omim", "OMIM_Gene"]),
   ("Orpha", ["Orpha", "orpha", "OrphaNumber", "Orphanet"]),
   ("origin", ["origin", "Origin", "Inheritance"]),
   ("filter", ["FILTER", "filter", "Filter"])]

/-- Model of _map_columns: bind each semantic field to the first candidate
    name literally present in the header; unresolved fields are absent. -/
def mapColumns (header : List String) : ColumnMap :=
  column_patterns.filterMap (fun p =>
    (p.2.find? (fun v => header.contains v)).map (fun col => (p.1, col)))

/-- Model of _get_col: resolve the semantic name through the column map,
    look the bound column up in the row, and fall back to the default when
    the field is unresolved, the column is absent, or the value is NaN. -/
def getCol (cmap : ColumnMap) (name : String) (row : Row) (default : Cell) : Cell :=
  match cmap.lookup name with
  | some col =>
    match row.lookup col with
    | some v => if isna v then default else v
    | none => default
  | none => default

/-- Model of _get_col_as_str: _get_col rendered as a string. -/
def getColStr (cmap : ColumnMap) (name : String) (row : Row) (default : String) : String :=
  match getCol cmap name row (Cell.str default) with
  | .nan => default
  | .str s => s

/-- Configuration surface consumed by the engine (the parsed CLI arguments). -/
structure Config where
  input_file : String
  top_n : Int
  min_cadd : PyNum
  max_gnomad : PyNum
  include_benign : Bool
  genes_of_interest : List String
  phenotype_terms : List String
  inheritance_patterns : List (String × String)

/-- Default configuration from the argument parser defaults. -/
def defaultConfig : Config :=
  { input_file := "variants.tsv"
    top_n := 0
    min_cadd := pyOfInt 0
    max_gnomad := pyOfInt 1
    include_benign := false
    genes_of_interest := []
    phenotype_terms := []
    inheritance_patterns := [] }

/-- Per-rule weight table ACMG_RULE_WEIGHTS. -/
def ACMG_RULE_WEIGHTS : List (String × Int) :=
  [("PVS1", 30),
   ("PS1", 10), ("PS2", 10), ("PS3", 10), ("PS4", 10),
   ("BA1", -7),
   ("PM1", 6), ("PM2", 6), ("PM3", 6), ("PM4", 6), ("PM5", 6), ("PM6", 6),
   ("BS1", -5), ("BS2", -5), ("BS3", -5), ("BS4", -5),
   ("PP1", 3), ("PP2", 3), ("PP3", 3), ("PP4", 3), ("PP5", 3),
   ("BP1", -2), ("BP2", -2), ("BP3", -2), ("BP4", -2), ("BP5", -2), ("BP6", -2), ("BP7", -2)]

/-- Model of the regex match in _parse_clnsigconf: a stripped entry matches
    name(count) when a nonempty run without an opening parenthesis is
    followed by a parenthesised nonempty digit run; trailing text after the
    closing parenthesis is allowed.  The captured name is stripped and
    lowered as in the source. -/
def parseClnsigEntry (s : String) : Option (String × Nat) :=
  let t := (pyStrip s).data
  let a := t.takeWhile (fun c => c ≠ '(')
  match t.dropWhile (fun c => c ≠ '(') with
  | '(' :: r2 =>
    let d := r2.takeWhile Char.isDigit
    match r2.dropWhile Char.isDigit with
    | ')' :: _ =>
      if a.isEmpty || d.isEmpty then none
      else some (pyLower (pyStrip (String.mk a)), parseDigits d)
    | _ => none
  | _ => none

/-- Score contributed by one CLNSIGCONF entry. -/
def clnsigEntryScore (entry : String) : Int :=
  match parseClnsigEntry entry with
  | some (name, count) =>
    if hasSubstr name "pathogenic" && !hasSubstr name "likely_pathogenic" then (count : Int) * 200
    else if hasSubstr name "likely_pathogenic" then (count : Int) * 150
    else 0
  | none => 0

/-- Model of _parse_clnsigconf: split on the bar separator and add the
    weighted counts of the pathogenic classifications. -/
def parse_clnsigconf (v : String) : Int :=
  if v = "." then 0
  else ((pySplit v '|').map clnsigEntryScore).sum

/-- Model of calculate_clinical_score: the ACMG bucket, the ClinVar bucket
    with its additive modifiers, and the CLNSIGCONF contribution. -/
def calculate_clinical_score (cmap : ColumnMap) (row : Row) : Int :=
  let acmg_val := getColStr cmap "ACMG" row "."
  let acmgScore : Int :=
    if acmg_val ≠ "." then
      let a := pyLower acmg_val
      if hasSubstr a "pathogenic" && !hasSubstr a "likely" then 2000
      else if hasSubstr a "likely pathogenic" then 1800
      else if hasSubstr a "uncertain significance" then 600
      else if hasSubstr a "likely benign" then 200
      else if hasSubstr a "benign" then 100
      else 0
    else 0
  let clinvar_val := getColStr cmap "clinvar" row "."
  let clinvarScore : Int :=
    if clinvar_val ≠ "." then
      let c := pyLower clinvar_val
      let base : Int :=
        if hasSubstr c "pathogenic" && !hasSubstr c "likely_pathogenic" && !hasSubstr c "benign"
            && !hasSubstr c "conflicting" && !hasSubstr c "uncertain" then 1800
        else if hasSubstr c "pathogenic\\x2c_low_penetrance" && !hasSubstr c "benign" then 1700
        else if (hasSubstr c "pathogenic/likely_pathogenic"
            || hasSubstr c "likely_pathogenic/pathogenic") && !hasSubstr c "benign" then 1600
        else if hasSubstr c "pathogenic/likely_risk_allele" && !hasSubstr c "benign" then 1500
        else if (hasSubstr c "pathogenic/" || hasSubstr c "/pathogenic")
            && !hasSubstr c "benign" then 1400
        else if hasSubstr c "likely_pathogenic" && !hasSubstr c "pathogenic/"
            && !hasSubstr c "/pathogenic" && !hasSubstr c "benign" then 1400
        else if hasSubstr c "likely_risk_allele" && !hasSubstr c "uncertain" then 500
        else if hasSubstr c "conflicting_classifications_of_pathogenicity" then 400
        else if hasSubstr c "uncertain_significance" then 300
        else if hasSubstr c "uncertain_risk_allele" then 250
        else if hasSubstr c "likely_benign" && !hasSubstr c "pathogenic"
            && !hasSubstr c "conflicting" then 100
        else if hasSubstr c "benign" && !hasSubstr c "likely" && !hasSubstr c "pathogenic"
            && !hasSubstr c "conflicting" then 50
        else 0
      let m1 : Int := if hasSubstr c "affects" then 120 else 0
      let m2 : Int := if hasSubstr c "risk_factor" then 180 else 0
      let m3 : Int := if hasSubstr c "association" then 100 else 0
      let m4 : Int := if hasSubstr c "protective" then 120 else 0
      let m5 : Int := if hasSubstr c "drug_response" then 80 else 0
      let m6 : Int := if hasSubstr c "confers_sensitivity" then 100 else 0
      let m7 : Int :=
        if hasSubstr c "low_penetrance" && !hasSubstr c "\\x2c_low_penetrance" then 70 else 0
      base + m1 + m2 + m3 + m4 + m5 + m6 + m7
    else 0
  let clnsigconfScore := parse_clnsigconf (getColStr cmap "CLNSIGCONF" row ".")
  acmgScore + clinvarScore + clnsigconfScore

/-- Model of calculate_impact_score: the effect-keyword bucket plus the
    SnpEff impact-level bucket. -/
def calculate_impact_score (cmap : ColumnMap) (row : Row) : Int :=
  let effect_val := getColStr cmap "effect" row "."
  let effectScore : Int :=
    if effect_val ≠ "." then
      let e := pyLower effect_val
      if ["frameshift", "stop_gained", "stop_lost", "start_lost",
          "splice_donor", "splice_acceptor"].any (fun x => hasSubstr e x) then 500
      else if ["missense", "inframe_insertion", "inframe_deletion",
          "protein_altering", "splice_region"].any (fun x => hasSubstr e x) then 300
      else if ["synonymous", "stop_retained", "start_retained"].any
          (fun x => hasSubstr e x) then 150
      else if ["utr", "intron", "upstream", "downstream",
          "intergenic", "non_coding"].any (fun x => hasSubstr e x) then 50
      else 0
    else 0
  let impact_val := getColStr cmap "impact" row "."
  let impactScore : Int :=
    if impact_val ≠ "." then
      let i := pyUpper impact_val
      if i = "HIGH" then 300
      else if i = "MODERATE" then 200
      else if i = "LOW" then 100
      else if i = "MODIFIER" then 50
      else 0
    else 0
  effectScore + impactScore

/-- Rarity bucket applied to the first parsed population frequency. -/
def freqBucket (freq : PyNum) : Int :=
  if freq.eqv (pyOfInt 0) then 500
  else if freq < pn 1 10000 then 400
  else if freq < pn 1 1000 then 300
  else if freq < pn 1 100 then 200
  else if freq < pn 1 20 then 100
  else 0

/-- Model of re.findall for the population-frequency pattern: an uppercase
    run, a colon, and a nonempty run of digits and dots, scanning left to
    right and resuming after each match. -/
def findPopFreqs : List Char → List (String × String)
  | [] => []
  | c :: rest =>
    if c.isUpper then
      let letters := (c :: rest).takeWhile Char.isUpper
      match hdrop : (c :: rest).dropWhile Char.isUpper with
      | ':' :: r2 =>
        let num := r2.takeWhile (fun ch => ch.isDigit || ch == '.')
        if num.isEmpty then findPopFreqs rest
        else (String.mk letters, String.mk num) :: findPopFreqs (r2.dropWhile (fun ch => ch.isDigit || ch == '.'))
      | _ => findPopFreqs rest
    else findPopFreqs rest
termination_by cs => cs.length
decreasing_by
  · simp
  · simp only [List.length_cons]
    have h1 : (List.dropWhile (fun ch => ch.isDigit || ch == '.') r2).length ≤ r2.length :=
      (List.dropWhile_sublist _).length_le
    have h3 : (List.dropWhile Char.isUpper (c :: rest)).length ≤ (c :: rest).length :=
      (List.dropWhile_sublist _).length_le
    rw [hdrop] at h3
    simp only [List.length_cons] at h3
    omega
  · simp
  · simp

/-- Python max over the parsed population frequencies; none models the
    ValueError escape when some entry fails to parse. -/
def maxParsedFreq : List String → Option PyNum
  | [] => none
  | [x] => pyFloat x
  | x :: y :: rest =>
    match pyFloat x, maxParsedFreq (y :: rest) with
    | some a, some b => some (if a < b then b else a)
    | _, _ => none

/-- Model of calculate_frequency_score: bucket the first parsed frequency
    field, then subtract when a population-specific frequency is common. -/
def calculate_frequency_score (cmap : ColumnMap) (row : Row) : Int :=
  let firstScore : Int :=
    match ["gnomAD_freq", "esp_freq", "g1000_freq"].findSome? (fun f =>
        let v := getColStr cmap f row "."
        if v ≠ "." then pyFloat v else none) with
    | some q => freqBucket q
    | none => 0
  let pops := getColStr cmap "pop_freqs" row "."
  let popAdjust : Int :=
    if pops ≠ "." then
      let pairs := findPopFreqs pops.data
      if !pairs.isEmpty then
        match maxParsedFreq (pairs.map (fun p => p.2)) with
        | some m => if m > pn 1 20 then -50 else 0
        | none => 0
      else 0
    else 0
  firstScore + popAdjust

/-- Model of calculate_prediction_score: CADD, SIFT, MetaSVM and the two
    splicing predictors, all additive. -/
def calculate_prediction_score (cmap : ColumnMap) (row : Row) : Int :=
  let caddScore : Int :=
    let v := getColStr cmap "CADD_phred" row "."
    if v ≠ "." then
      match pyFloat v with
      | some cadd =>
        if cadd > pyOfInt 30 then 300
        else if cadd > pyOfInt 25 then 250
        else if cadd > pyOfInt 20 then 200
        else if cadd > pyOfInt 15 then 150
        else if cadd > pyOfInt 10 then 100
        else 0
      | none => 0
    else 0
  let siftScore : Int :=
    let v := getColStr cmap "SIFT_score" row "."
    if v ≠ "." then
      match pyFloat v with
      | some sift =>
        if sift < pn 5 100 then 200
        else if sift < pn 1 10 then 100
        else if sift < pn 1 5 then 50
        else 0
      | none => 0
    else 0
  let metasvmScore : Int :=
    let v := getColStr cmap "MetaSVM" row "."
    if v ≠ "." then
      match pyFloat v with
      | some m => if m > pn 1 2 then 150 else 0
      | none => 0
    else 0
  let splicingScore : Int :=
    (["ADA_score", "RF_score"].map (fun f =>
      let v := getColStr cmap f row "."
      if v ≠ "." then
        match pyFloat v with
        | some value =>
          if value > pn 4 5 then (150 : Int)
          else if value > pn 3 5 then 75
          else 0
        | none => 0
      else 0)).sum
  caddScore + siftScore + metasvmScore + splicingScore

/-- Model of calculate_acmg_rule_score: split the rules on commas, add the
    per-token weights and scale by 20. -/
def calculate_acmg_rule_score (cmap : ColumnMap) (row : Row) : Int :=
  let acmg_rules_val := getColStr cmap "ACMG_Rules" row "."
  if acmg_rules_val = "." then 0
  else
    (((pySplit acmg_rules_val ',').map
      (fun rule => (ACMG_RULE_WEIGHTS.lookup (pyStrip rule)).getD 0)).sum) * 20

/-- Model of calculate_conservation_score: GERP and phyloP buckets. -/
def calculate_conservation_score (cmap : ColumnMap) (row : Row) : Int :=
  let gerpScore : Int :=
    let v := getColStr cmap "GERP" row "."
    if v ≠ "." then
      match pyFloat v with
      | some gerp =>
        if gerp > pyOfInt 5 then 200
        else if gerp > pyOfInt 4 then 150
        else if gerp > pyOfInt 2 then 100
        else if gerp > pyOfInt 0 then 50
        else 0
      | none => 0
    else 0
  let phylopScore : Int :=
    let v := getColStr cmap "phyloP" row "."
    if v ≠ "." then
      match pyFloat v with
      | some phylop =>
        if phylop > pyOfInt 3 then 150
        else if phylop > pyOfInt 2 then 100
        else if phylop > pyOfInt 1 then 75
        else if phylop > pyOfInt 0 then 50
        else 0
      | none => 0
    else 0
  gerpScore + phylopScore

/-- Model of calculate_inheritance_score: origin keyword bucket, allele
    depth balance, and the configured gene-specific pattern bonus. -/
def calculate_inheritance_score (cfg : Config) (cmap : ColumnMap) (row : Row) : Int :=
  let origin_val := getColStr cmap "origin" row "."
  let originScore : Int :=
    if origin_val ≠ "." then
      let o := pyLower origin_val
      if hasSubstr o "de novo" || hasSubstr o "denovo" then 500
      else if hasSubstr o "compound" && hasSubstr o "heterozygous" then 300
      else if hasSubstr o "homozygous" then 300
      else if hasSubstr o "hemizygous" || hasSubstr o "hemizygote" then 300
      else if ["x-linked", "dominant", "recessive"].any (fun x => hasSubstr o x) then 200
      else 0
    else 0
  let ad_val := getColStr cmap "ad" row "."
  let adScore : Int :=
    if ad_val ≠ "." ∧ hasSubstr ad_val "," then
      match pySplit ad_val ',' with
      | p0 :: p1 :: _ =>
        match pyInt p0, pyInt p1 with
        | some ref_depth, some alt_depth =>
          let total_depth := ref_depth + alt_depth
          if htd : 0 < total_depth then
            let vaf : PyNum := ⟨alt_depth, ⟨total_depth.toNat, by omega⟩⟩
            if vaf > pn 4 5 then 200
            else if pn 3 10 ≤ vaf ∧ vaf ≤ pn 7 10 then 100
            else 0
          else 0
        | _, _ => 0
      | _ => 0
    else 0
  let gene_val := getColStr cmap "gene" row "."
  let geneScore : Int :=
    if gene_val ≠ "." then
      match cfg.inheritance_patterns.lookup gene_val with
      | some pat =>
        150 + (if hasSubstr (pyLower pat) "x-linked" then 100 else 0)
      | none => 0
    else 0
  originScore + adScore + geneScore

/-- Model of calculate_phenotype_score: 100 per configured term matching
    the OMIM text, 100 per term matching the Orpha text, and a flat 200
    when the gene is in the gene-of-interest set. -/
def calculate_phenotype_score (cfg : Config) (cmap : ColumnMap) (row : Row) : Int :=
  if cfg.phenotype_terms = [] then 0
  else
    let omim_val := getColStr cmap "OMIM" row "."
    let omimScore : Int :=
      if omim_val ≠ "." then
        100 * ((cfg.phenotype_terms.filter
          (fun t => hasSubstr (pyLower omim_val) (pyLower t))).length : Int)
      else 0
    let orpha_val := getColStr cmap "Orpha" row "."
    let orphaScore : Int :=
      if orpha_val ≠ "." then
        100 * ((cfg.phenotype_terms.filter
          (fun t => hasSubstr (pyLower orpha_val) (pyLower t))).length : Int)
      else 0
    let gene_val := getColStr cmap "gene" row "."
    let geneScore : Int :=
      if gene_val ≠ "." ∧ cfg.genes_of_interest.contains gene_val then 200 else 0
    omimScore + orphaScore + geneScore

/-- Model of calculate_quality_score: depth bucket, sample allele-frequency
    bucket, and the filter-status bucket. -/
def calculate_quality_score (cmap : ColumnMap) (row : Row) : Int :=
  let depthScore : Int :=
    let v := getColStr cmap "depth" row "."
    if v ≠ "." then
      match pyFloat v with
      | some depth =>
        if depth ≥ pyOfInt 50 then 150
        else if depth ≥ pyOfInt 30 then 100
        else if depth ≥ pyOfInt 20 then 50
        else if depth ≥ pyOfInt 10 then 0
        else -100
      | none => 0
    else 0
  let afScore : Int :=
    let v := getColStr cmap "af" row "."
    if v ≠ "." then
      match pyFloat v with
      | some af =>
        if af ≥ pn 3 10 then 100
        else if af ≥ pn 1 5 then 50
        else if af < pn 1 10 then -50
        else 0
      | none => 0
    else 0
  let filter_val := getColStr cmap "filter" row "."
  let filterScore : Int :=
    if filter_val ≠ "." then (if filter_val = "PASS" then 100 else -200) else 0
  depthScore + afScore + filterScore

/-- Composite priority score as summed in run, with the component weights
    5, 3, 2, 2, 4, 1, 2, 3, 1. -/
def priorityScore (cfg : Config) (cmap : ColumnMap) (row : Row) : Int :=
  calculate_clinical_score cmap row * 5 +
  calculate_impact_score cmap row * 3 +
  calculate_frequency_score cmap row * 2 +
  calculate_prediction_score cmap row * 2 +
  calculate_acmg_rule_score cmap row * 4 +
  calculate_conservation_score cmap row * 1 +
  calculate_inheritance_score cfg cmap row * 2 +
  calculate_phenotype_score cfg cmap row * 3 +
  calculate_quality_score cmap row * 1

/-- Named, already-weighted component breakdown stored for each variant. -/
def componentPairs (cfg : Config) (cmap : ColumnMap) (row : Row) : List (String × Int) :=
  [("ACMG/Clinical", calculate_clinical_score cmap row * 5),
   ("Impact", calculate_impact_score cmap row * 3),
   ("Frequency", calculate_frequency_score cmap row * 2),
   ("Prediction", calculate_prediction_score cmap row * 2),
   ("ACMG_Rules", calculate_acmg_rule_score cmap row * 4),
   ("Conservation", calculate_conservation_score cmap row * 1),
   ("Inheritance", calculate_inheritance_score cfg cmap row * 2),
   ("Phenotype", calculate_phenotype_score cfg cmap row * 3),
   ("Quality", calculate_quality_score cmap row * 1)]

/-- Join a list of strings with a separator. -/
def joinSep (sep : String) : List String → String
  | [] => ""
  | [x] => x
  | x :: y :: rest => x ++ sep ++ joinSep sep (y :: rest)

/-- Model of format_component_scores: comma-join the positive components. -/
def format_component_scores (scores : List (String × Int)) : String :=
  joinSep ", " ((scores.filter (fun p => 0 < p.2)).map
    (fun p => p.1 ++ ": " ++ toString p.2))

/-- Ordered checks of the ACMG branch of get_variant_classification; the
    none case is the fall-through when no pattern matches or the value is
    the missing sentinel. -/
def classifyACMGText (s : String) : Option String :=
  if s = "." then none
  else if hasSubstr (pyLower s) "pathogenic" && !hasSubstr (pyLower s) "likely" then
    some "Pathogenic"
  else if hasSubstr (pyLower s) "likely pathogenic" then some "Likely Pathogenic"
  else if hasSubstr (pyLower s) "uncertain significance" then some "VUS"
  else if hasSubstr (pyLower s) "likely benign" then some "Likely Benign"
  else if hasSubstr (pyLower s) "benign" && !hasSubstr (pyLower s) "likely" then some "Benign"
  else none

/-- Ordered checks of the ClinVar branch of get_variant_classification. -/
def classifyClinvarText (s : String) : Option String :=
  if s = "." then none
  else if hasSubstr (pyLower s) "pathogenic" && !hasSubstr (pyLower s) "likely"
      && !hasSubstr (pyLower s) "benign" then some "Pathogenic"
  else if hasSubstr (pyLower s) "likely_pathogenic"
      && !hasSubstr (pyLower s) "benign" then some "Likely Pathogenic"
  else if hasSubstr (pyLower s) "uncertain_significance" then some "VUS"
  else if hasSubstr (pyLower s) "likely_benign"
      && !hasSubstr (pyLower s) "pathogenic" then some "Likely Benign"
  else if hasSubstr (pyLower s) "benign" && !hasSubstr (pyLower s) "likely"
      && !hasSubstr (pyLower s) "pathogenic" then some "Benign"
  else if hasSubstr (pyLower s) "conflicting" then some "Conflicting"
  else none

/-- Model of get_variant_classification: the ACMG checks first, falling
    through to the ClinVar checks, defaulting to Unknown. -/
def get_variant_classification (cmap : ColumnMap) (row : Row) : String :=
  match classifyACMGText (getColStr cmap "ACMG" row ".") with
  | some r => r
  | none =>
    match classifyClinvarText (getColStr cmap "clinvar" row ".") with
    | some r => r
    | none => "Unknown"

/-- An ingested table: the header and the data rows, every cell read as
    verbatim text (dtype=str, na_filter=False). -/
structure Table where
  header : List String
  rows : List (List String)
deriving DecidableEq, Repr

/-- Row of a table as the association of column name to cell. -/
def rowAssoc (header : List String) (r : List String) : Row :=
  (header.zip r).map (fun p => (p.1, Cell.str p.2))

/-- Direct column access df[col] on one row. -/
def colVal (header r : List String) (col : String) : String :=
  ((header.zip r).lookup col).getD ""

/-- CADD prefilter keep-predicate: keep unparsable or missing values, and
    parsed values at or above the floor. -/
def caddKeep (minc : PyNum) (v : String) : Bool :=
  match pyFloat v with
  | none => true
  | some x => minc ≤ x

/-- CADD floor stage of apply_prefilters, active only for a positive floor
    with a resolved column. -/
def stageCadd (minc : PyNum) (cmap : ColumnMap) (header : List String)
    (rows : List (List String)) : List (List String) :=
  match cmap.lookup "CADD_phred" with
  | some col =>
    if pyOfInt 0 < minc then rows.filter (fun r => caddKeep minc (colVal header r col))
    else rows
  | none => rows

/-- gnomAD ceiling keep-predicate: the missing sentinel is replaced by NaN
    before coercion, and NaN rows are kept. -/
def gnomadKeep (maxg : PyNum) (v : String) : Bool :=
  match (if v = "." then none else pyFloat v) with
  | none => true
  | some x => x ≤ maxg

/-- gnomAD ceiling stage of apply_prefilters. -/
def stageGnomad (maxg : PyNum) (cmap : ColumnMap) (header : List String)
    (rows : List (List String)) : List (List String) :=
  if maxg < pyOfInt 1 then
    match cmap.lookup "gnomAD_freq" with
    | some col => rows.filter (fun r => gnomadKeep maxg (colVal header r col))
    | none => rows
  else rows

/-- Benign-exclusion stage of apply_prefilters: drop rows whose ACMG text
    contains enign without ikely, case-insensitively. -/
def stageBenign (includeBenign : Bool) (cmap : ColumnMap) (header : List String)
    (rows : List (List String)) : List (List String) :=
  if includeBenign then rows
  else
    match cmap.lookup "ACMG" with
    | some col =>
      rows.filter (fun r =>
        !(hasSubstr (pyLower (colVal header r col)) "enign"
          && !hasSubstr (pyLower (colVal header r col)) "ikely"))
    | none => rows

/-- Gene-of-interest stage of apply_prefilters. -/
def stageGenes (genes : List String) (cmap : ColumnMap) (header : List String)
    (rows : List (List String)) : List (List String) :=
  if genes.isEmpty then rows
  else
    match cmap.lookup "gene" with
    | some col => rows.filter (fun r => genes.contains (colVal header r col))
    | none => rows

/-- Model of apply_prefilters: the four stages in their fixed order. -/
def applyPrefilters (cfg : Config) (cmap : ColumnMap) (header : List String)
    (rows : List (List String)) : List (List String) :=
  stageGenes cfg.genes_of_interest cmap header
    (stageBenign cfg.include_benign cmap header
      (stageGnomad cfg.max_gnomad cmap header
        (stageCadd cfg.min_cadd cmap header rows)))

/-- Descending-score order used by the ranking sort. -/
def scoreDescRel (a b : List String × Int) : Prop := b.2 ≤ a.2

instance : DecidableRel scoreDescRel := fun a b => Int.decLe b.2 a.2

/-- Stable descending sort of the scored rows, modelling the Python sorted
    call with the score key and reverse=True. -/
def rankScored (l : List (List String × Int)) : List (List String × Int) :=
  l.insertionSort scoreDescRel

/-- Truncation to the configured top N, applied after sorting. -/
def truncTop (top_n : Int) (l : List (List String × Int)) : List (List String × Int) :=
  if 0 < top_n ∧ top_n < (l.length : Int) then l.take top_n.toNat else l

/-- Column map built for a table. -/
def theCmap (t : Table) : ColumnMap := mapColumns t.header

/-- Rows surviving the prefilters, in input order. -/
def survivors (t : Table) (cfg : Config) : List (List String) :=
  applyPrefilters cfg (theCmap t) t.header t.rows

/-- Surviving rows paired with their composite priority scores. -/
def scoredRows (t : Table) (cfg : Config) : List (List String × Int) :=
  (survivors t cfg).map (fun r => (r, priorityScore cfg (theCmap t) (rowAssoc t.header r)))

/-- Scored survivors after ranking and optional truncation. -/
def rankedRows (t : Table) (cfg : Config) : List (List String × Int) :=
  truncTop cfg.top_n (rankScored (scoredRows t cfg))

/-- One output row: the original cells followed by the rendered score and
    the component breakdown. -/
def outRow (t : Table) (cfg : Config) (p : List String × Int) : List String :=
  p.1 ++ [toString p.2, format_component_scores (componentPairs cfg (theCmap t) (rowAssoc t.header p.1))]

/-- The emitted table of write_output. -/
structure OutTable where
  header : List String
  rows : List (List String)
deriving DecidableEq, Repr

/-- Prioritized output table: original columns plus the two appended ones. -/
def outTable (t : Table) (cfg : Config) : OutTable :=
  { header := t.header ++ ["PriorityScore", "ScoreComponents"]
    rows := (rankedRows t cfg).map (outRow t cfg) }

/-- Model of run up to the emitted table: an empty input aborts with the
    failure outcome (run returns False), otherwise the prioritized table is
    produced. -/
def runModel (t : Table) (cfg : Config) : Option OutTable :=
  if t.rows.isEmpty then none else some (outTable t cfg)

/-- Process exit code of main: zero only when run reports success. -/
def mainExitCode (t : Table) (cfg : Config) : Nat :=
  if (runModel t cfg).isSome then 0 else 1

/-- Keys of a Counter in first-encounter order, as the insertion order of
    the underlying dict. -/
def counterKeys (l : List String) : List String :=
  l.foldl (fun acc x => if acc.contains x then acc else acc ++ [x]) []

/-- Items of a Counter built from a list of values: distinct keys in
    first-encounter order, each with its multiplicity. -/
def counterItems (l : List String) : List (String × Nat) :=
  (counterKeys l).map (fun k => (k, l.count k))

/-- Descending-count order used by most_common. -/
def countDescRel (a b : String × Nat) : Prop := b.2 ≤ a.2

instance : DecidableRel countDescRel := fun a b => Nat.decLe b.2 a.2

/-- Model of Counter.most_common with an explicit bound: a stable
    descending sort on counts truncated to the bound. -/
def most_common (n : Nat) (items : List (String × Nat)) : List (String × Nat) :=
  (items.insertionSort countDescRel).take n

/-- Python tuple comparison on the displayed (gene, count) pairs. -/
def pairRel (a b : String × Nat) : Prop :=
  pyStrLt a.1 b.1 = true ∨ (a.1 = b.1 ∧ a.2 ≤ b.2)

instance (a b : String × Nat) : Decidable (pairRel a b) :=
  inferInstanceAs (Decidable (pyStrLt a.1 b.1 = true ∨ (a.1 = b.1 ∧ a.2 ≤ b.2)))

/-- Entries of the Top Genes section: the ten most common genes, the ties
    within most_common resolved by first encounter, then displayed in
    ascending pair order with the missing sentinel removed. -/
def topGenesEntries (genes : List String) : List (String × Nat) :=
  ((most_common 10 (counterItems genes)).insertionSort pairRel).filter (fun p => p.1 ≠ ".")

/-- Numeric view of a boolean for the Python key tuples (False before True). -/
def boolNat (b : Bool) : Nat := if b then 1 else 0

/-- Lexicographic comparison of the summary sort keys. -/
def tripleRel (a b : Nat × Nat × String) : Prop :=
  a.1 < b.1 ∨ (a.1 = b.1 ∧ (a.2.1 < b.2.1 ∨ (a.2.1 = b.2.1 ∧
    (pyStrLt a.2.2 b.2.2 = true ∨ a.2.2 = b.2.2))))

instance (a b : Nat × Nat × String) : Decidable (tripleRel a b) :=
  inferInstanceAs (Decidable (a.1 < b.1 ∨ (a.1 = b.1 ∧ (a.2.1 < b.2.1 ∨ (a.2.1 = b.2.1 ∧
    (pyStrLt a.2.2 b.2.2 = true ∨ a.2.2 = b.2.2))))))

/-- Pathogenic-first ordering of the classification distribution. -/
def classKeyRel (a b : String × Nat) : Prop :=
  tripleRel (boolNat (a.1 ≠ "Pathogenic"), boolNat (a.1 ≠ "Likely Pathogenic"), a.1)
    (boolNat (b.1 ≠ "Pathogenic"), boolNat (b.1 ≠ "Likely Pathogenic"), b.1)

instance (a b : String × Nat) : Decidable (classKeyRel a b) :=
  inferInstanceAs (Decidable (tripleRel _ _))

/-- HIGH-first ordering of the impact distribution. -/
def impactKeyRel (a b : String × Nat) : Prop :=
  tripleRel (boolNat (a.1 ≠ "HIGH"), boolNat (a.1 ≠ "MODERATE"), a.1)
    (boolNat (b.1 ≠ "HIGH"), boolNat (b.1 ≠ "MODERATE"), b.1)

instance (a b : String × Nat) : Decidable (impactKeyRel a b) :=
  inferInstanceAs (Decidable (tripleRel _ _))

/-- Rendering of one distribution entry in the summary. -/
def fmtCount (p : String × Nat) : String := "  " ++ p.1 ++ ": " ++ toString p.2

/-- Gene column values of the emitted rows. -/
def outGeneValues (t : Table) (cfg : Config) (col : String) : List String :=
  (rankedRows t cfg).map (fun p => colVal t.header p.1 col)

/-- Model of write_summary as the list of emitted lines; now is the
    wall-clock timestamp rendered into the Date line. -/
def summaryLines (t : Table) (cfg : Config) (now : String) : List String :=
  let cmap := theCmap t
  let surv := survivors t cfg
  let ranked := rankedRows t cfg
  let classCounts := counterItems
    (surv.map (fun r => get_variant_classification cmap (rowAssoc t.header r)))
  let impactSection : List String :=
    match cmap.lookup "impact" with
    | some col =>
      let ic := counterItems (ranked.map (fun p => colVal t.header p.1 col))
      if ic.isEmpty then []
      else "Impact Distribution:" :: (ic.insertionSort impactKeyRel).map fmtCount ++ [""]
    | none => []
  let geneSection : List String :=
    match cmap.lookup "gene" with
    | some col =>
      let gc := counterItems (outGeneValues t cfg col)
      if gc.isEmpty then []
      else "Top Genes:" :: (topGenesEntries (outGeneValues t cfg col)).map fmtCount
    | none => []
  ["Variant Prioritization Summary",
   "==============================",
   "",
   "Input file: " ++ cfg.input_file,
   "Date: " ++ now,
   "",
   "Variant Statistics:",
   "------------------",
   "Total variants processed: " ++ toString t.rows.length,
   "Variants after filtering: " ++ toString ranked.length,
   "",
   "Classification Distribution:"]
  ++ (classCounts.insertionSort classKeyRel).map fmtCount
  ++ [""]
  ++ impactSection ++ geneSection

/-- Model of the run of write_output and write_summary together: the
    emitted artifacts as a function of the input, the configuration and
    the wall-clock timestamp observed during reporting. -/
def runArtifacts (t : Table) (cfg : Config) (now : String) : Option (OutTable × List String) :=
  if t.rows.isEmpty then none
  else some (outTable t cfg, summaryLines t cfg now)

/-! Helper lemmas about the PyNum order, the prefilter stages, the ranking
relations and the classifier, shared by the claim theorems below. -/

lemma PyNum.den_posZ (a : PyNum) : (0 : ℤ) < ((a.den : ℕ) : ℤ) := by
  exact_mod_cast a.den.2

protected lemma PyNum.le_trans {a b c : PyNum} (h1 : a ≤ b) (h2 : b ≤ c) : a ≤ c := by
  have h1x : a.num * ((b.den : ℕ) : ℤ) ≤ b.num * ((a.den : ℕ) : ℤ) := h1
  have h2x : b.num * ((c.den : ℕ) : ℤ) ≤ c.num * ((b.den : ℕ) : ℤ) := h2
  show a.num * ((c.den : ℕ) : ℤ) ≤ c.num * ((a.den : ℕ) : ℤ)
  nlinarith [mul_le_mul_of_nonneg_right h1x (le_of_lt c.den_posZ),
    mul_le_mul_of_nonneg_right h2x (le_of_lt a.den_posZ), b.den_posZ]

protected lemma PyNum.lt_of_lt_of_le {a b c : PyNum} (h1 : a < b) (h2 : b ≤ c) : a < c := by
  have h1x : a.num * ((b.den : ℕ) : ℤ) < b.num * ((a.den : ℕ) : ℤ) := h1
  have h2x : b.num * ((c.den : ℕ) : ℤ) ≤ c.num * ((b.den : ℕ) : ℤ) := h2
  show a.num * ((c.den : ℕ) : ℤ) < c.num * ((a.den : ℕ) : ℤ)
  nlinarith [mul_lt_mul_of_pos_right h1x c.den_posZ,
    mul_le_mul_of_nonneg_right h2x (le_of_lt a.den_posZ), b.den_posZ]

lemma stageCadd_sublist_self (minc : PyNum) (cmap : ColumnMap) (header : List String)
    (rows : List (List String)) : stageCadd minc cmap header rows <+ rows := by
  unfold stageCadd
  split
  · split
    · exact List.filter_sublist _
    · exact List.Sublist.refl _
  · exact List.Sublist.refl _

lemma stageGnomad_sublist (maxg : PyNum) (cmap : ColumnMap) (header : List String)
    {l1 l2 : List (List String)} (h : l1 <+ l2) :
    stageGnomad maxg cmap header l1 <+ stageGnomad maxg cmap header l2 := by
  unfold stageGnomad
  split
  · split
    · exact h.filter _
    · exact h
  · exact h

lemma stageBenign_sublist (ib : Bool) (cmap : ColumnMap) (header : List String)
    {l1 l2 : List (List String)} (h : l1 <+ l2) :
    stageBenign ib cmap header l1 <+ stageBenign ib cmap header l2 := by
  unfold stageBenign
  split
  · exact h
  · split
    · exact h.filter _
    · exact h

lemma stageGenes_sublist (genes : List String) (cmap : ColumnMap) (header : List String)
    {l1 l2 : List (List String)} (h : l1 <+ l2) :
    stageGenes genes cmap header l1 <+ stageGenes genes cmap header l2 := by
  unfold stageGenes
  split
  · exact h
  · split
    · exact h.filter _
    · exact h

lemma stageGnomad_sublist_self (maxg : PyNum) (cmap : ColumnMap) (header : List String)
    (rows : List (List String)) : stageGnomad maxg cmap header rows <+ rows := by
  unfold stageGnomad
  split
  · split
    · exact List.filter_sublist _
    · exact List.Sublist.refl _
  · exact List.Sublist.refl _

lemma stageBenign_sublist_self (ib : Bool) (cmap : ColumnMap) (header : List String)
    (rows : List (List String)) : stageBenign ib cmap header rows <+ rows := by
  unfold stageBenign
  split
  · exact List.Sublist.refl _
  · split
    · exact List.filter_sublist _
    · exact List.Sublist.refl _

lemma stageGenes_sublist_self (genes : List String) (cmap : ColumnMap) (header : List String)
    (rows : List (List String)) : stageGenes genes cmap header rows <+ rows := by
  unfold stageGenes
  split
  · exact List.Sublist.refl _
  · split
    · exact List.filter_sublist _
    · exact List.Sublist.refl _

lemma applyPrefilters_sublist (cfg : Config) (cmap : ColumnMap) (header : List String)
    (rows : List (List String)) : applyPrefilters cfg cmap header rows <+ rows := by
  unfold applyPrefilters
  exact ((stageGenes_sublist_self _ _ _ _).trans
    ((stageBenign_sublist_self _ _ _ _).trans
      ((stageGnomad_sublist_self _ _ _ _).trans
        (stageCadd_sublist_self _ _ _ _))))

lemma survivors_sublist (t : Table) (cfg : Config) : survivors t cfg <+ t.rows :=
  applyPrefilters_sublist cfg (theCmap t) t.header t.rows

lemma stageCadd_mono {c1 c2 : PyNum} (h : c1 ≤ c2) (cmap : ColumnMap)
    (header : List String) (rows : List (List String)) :
    stageCadd c2 cmap header rows <+ stageCadd c1 cmap header rows := by
  unfold stageCadd
  cases hl : cmap.lookup "CADD_phred" with
  | none => exact List.Sublist.refl _
  | some col =>
    by_cases h2 : pyOfInt 0 < c2
    · by_cases h1 : pyOfInt 0 < c1
      · simp only [if_pos h1, if_pos h2]
        apply List.monotone_filter_right
        intro r hr
        unfold caddKeep at hr ⊢
        cases hp : pyFloat (colVal header r col) with
        | none => simp
        | some x =>
          rw [hp] at hr
          simpa using PyNum.le_trans h (by simpa using hr)
      · simp only [if_pos h2, if_neg h1]
        exact List.filter_sublist _
    · have h1 : ¬ pyOfInt 0 < c1 := fun hlt => h2 (PyNum.lt_of_lt_of_le hlt h)
      simp only [if_neg h1, if_neg h2]
      exact List.Sublist.refl _

instance : IsTotal (List String × Int) scoreDescRel :=
  ⟨fun a b => Int.le_total b.2 a.2⟩

instance : IsTrans (List String × Int) scoreDescRel :=
  ⟨fun _ _ _ h1 h2 => le_trans h2 h1⟩

lemma mem_rankedRows_fst {t : Table} {cfg : Config} {p : List String × Int}
    (hp : p ∈ rankedRows t cfg) : p.1 ∈ t.rows := by
  have h1 : p ∈ rankScored (scoredRows t cfg) := by
    unfold rankedRows truncTop at hp
    split at hp
    · exact List.take_subset _ _ hp
    · exact hp
  have h2 : p ∈ scoredRows t cfg := by
    unfold rankScored at h1
    exact (List.perm_insertionSort scoreDescRel _).subset h1
  unfold scoredRows at h2
  simp only [List.mem_map] at h2
  obtain ⟨r0, hr0, hpe⟩ := h2
  have : p.1 = r0 := by rw [← hpe]
  rw [this]
  exact (survivors_sublist t cfg).subset hr0

lemma classifyACMGText_range {s r : String} (h : classifyACMGText s = some r) :
    r = "Pathogenic" ∨ r = "Likely Pathogenic" ∨ r = "VUS" ∨
    r = "Likely Benign" ∨ r = "Benign" := by
  unfold classifyACMGText at h
  split_ifs at h <;> simp_all

lemma classifyClinvarText_range {s r : String} (h : classifyClinvarText s = some r) :
    r = "Pathogenic" ∨ r = "Likely Pathogenic" ∨ r = "VUS" ∨
    r = "Likely Benign" ∨ r = "Benign" ∨ r = "Conflicting" := by
  unfold classifyClinvarText at h
  split_ifs at h <;> simp_all

lemma strLtB_trans : ∀ {a b c : List Char},
    strLtB a b = true → strLtB b c = true → strLtB a c = true := by
  intro a
  induction a with
  | nil =>
    intro b c hab hbc
    cases b with
    | nil => simp [strLtB] at hab
    | cons y ys =>
      cases c with
      | nil => simp [strLtB] at hbc
      | cons z zs => simp [strLtB]
  | cons x xs ih =>
    intro b c hab hbc
    cases b with
    | nil => simp [strLtB] at hab
    | cons y ys =>
      cases c with
      | nil => simp [strLtB] at hbc
      | cons z zs =>
        simp only [strLtB] at hab hbc ⊢
        split_ifs at hab hbc ⊢ <;>
          first
            | rfl
            | exact ih hab hbc
            | omega

lemma strDataEq {a b : String} (h : a.data = b.data) : a = b := by
  cases a
  cases b
  exact congrArg String.mk h

lemma strLtB_total (a b : List Char) :
    strLtB a b = true ∨ strLtB b a = true ∨ a = b := by
  induction a generalizing b with
  | nil =>
    cases b with
    | nil => right; right; rfl
    | cons y ys => left; simp [strLtB]
  | cons x xs ih =>
    cases b with
    | nil => right; left; simp [strLtB]
    | cons y ys =>
      rcases Nat.lt_trichotomy x.toNat y.toNat with h | h | h
      · left; simp [strLtB, h]
      · have hxy : x = y := by
          apply Char.ext
          apply UInt32.toNat.inj
          simpa [Char.toNat] using h
        subst hxy
        rcases ih ys with h2 | h2 | h2
        · left; simpa [strLtB] using h2
        · right; left; simpa [strLtB] using h2
        · right; right; rw [h2]
      · right; left; simp [strLtB, h]

instance : IsTotal (String × Nat) pairRel := ⟨by
  intro a b
  rcases strLtB_total a.1.data b.1.data with h | h | h
  · exact Or.inl (Or.inl h)
  · exact Or.inr (Or.inl h)
  · have he : a.1 = b.1 := strDataEq h
    rcases Nat.le_total a.2 b.2 with h2 | h2
    · exact Or.inl (Or.inr ⟨he, h2⟩)
    · exact Or.inr (Or.inr ⟨he.symm, h2⟩)⟩

instance : IsTrans (String × Nat) pairRel := ⟨by
  intro a b c hab hbc
  rcases hab with h1 | h1 <;> rcases hbc with h2 | h2
  · exact Or.inl (strLtB_trans h1 h2)
  · rw [h2.1] at h1
    exact Or.inl h1
  · show pyStrLt a.1 c.1 = true ∨ (a.1 = c.1 ∧ a.2 ≤ c.2)
    rw [h1.1]
    exact Or.inl h2
  · exact Or.inr ⟨h1.1.trans h2.1, le_trans h1.2 h2.2⟩⟩

instance : IsTotal (String × Nat) countDescRel := ⟨fun a b => Nat.le_total b.2 a.2⟩

instance : IsTrans (String × Nat) countDescRel := ⟨fun _ _ _ h1 h2 => Nat.le_trans h2 h1⟩

/-! Concrete rows used by the scenario parts of the claims. -/

/-- Header of the scenario row of claim C1. -/
def c1header : List String :=
  ["ACMG", "ACMG_Rules", "ANN[0].EFFECT", "ANN[0].IMPACT",
   "Freq_gnomAD_genome_ALL", "CADD_phred", "DP", "FILTER"]

/-- Cells of the scenario row of claim C1. -/
def c1cells : List String :=
  ["Pathogenic", "PVS1,PS1", "stop_gained", "HIGH", "0", "35", "60", "PASS"]

/-- Column map resolved for the C1 scenario. -/
def c1cmap : ColumnMap := mapColumns c1header

/-- The C1 scenario row. -/
def c1row : Row := rowAssoc c1header c1cells

/-- Header of the scenario rows of claims C4 and C10. -/
def c4header : List String := ["ACMG", "clinvar"]

/-- Column map resolved for the C4 and C10 scenarios. -/
def c4cmap : ColumnMap := mapColumns c4header

/-- The C4 scenario row: missing ACMG, ClinVar text benign. -/
def c4row : Row := rowAssoc c4header [".", "benign"]

/-- The C10 scenario row: ACMG text matching no pattern, ClinVar benign. -/
def c10row : Row := rowAssoc c4header ["drug response", "benign"]

/-- C1: for the row with ACMG Pathogenic, rules PVS1 and PS1, effect
    stop_gained, impact HIGH, gnomAD frequency 0, CADD 35, depth 60 and
    filter PASS under the default configuration, the classification is
    Pathogenic and the composite score is exactly 17450; and for every row
    the composite equals the weighted sum 5 clinical + 3 impact +
    2 frequency + 2 prediction + 4 acmgRule + 1 conservation +
    2 inheritance + 3 phenotype + 1 quality, a function of the row, the
    column map and the configuration alone. -/
theorem C1_composite_score :
    (priorityScore defaultConfig c1cmap c1row = 17450 ∧
      get_variant_classification c1cmap c1row = "Pathogenic") ∧
    (∀ (cfg : Config) (cmap : ColumnMap) (row : Row),
      priorityScore cfg cmap row =
        5 * calculate_clinical_score cmap row + 3 * calculate_impact_score cmap row +
        2 * calculate_frequency_score cmap row + 2 * calculate_prediction_score cmap row +
        4 * calculate_acmg_rule_score cmap row + 1 * calculate_conservation_score cmap row +
        2 * calculate_inheritance_score cfg cmap row + 3 * calculate_phenotype_score cfg cmap row +
        1 * calculate_quality_score cmap row) := by
  refine ⟨⟨by decide, by decide⟩, ?_⟩
  intro cfg cmap row
  unfold priorityScore
  ring

/-- C4: the classifier checks the resolved ACMG text through the ordered
    patterns of classifyACMGText; when ACMG is the missing sentinel it
    falls back to the ClinVar checks of classifyClinvarText, and when
    neither matches the result is Unknown.  In particular the row with
    missing ACMG and ClinVar text benign classifies as Benign with
    clinical component 50, contributing 250 to the composite. -/
theorem C4_classifier_fallback :
    (∀ (cmap : ColumnMap) (row : Row) (r : String),
      classifyACMGText (getColStr cmap "ACMG" row ".") = some r →
      get_variant_classification cmap row = r) ∧
    (∀ (cmap : ColumnMap) (row : Row), getColStr cmap "ACMG" row "." = "." →
      get_variant_classification cmap row =
        (classifyClinvarText (getColStr cmap "clinvar" row ".")).getD "Unknown") ∧
    (∀ (cmap : ColumnMap) (row : Row),
      classifyACMGText (getColStr cmap "ACMG" row ".") = none →
      classifyClinvarText (getColStr cmap "clinvar" row ".") = none →
      get_variant_classification cmap row = "Unknown") ∧
    (get_variant_classification c4cmap c4row = "Benign" ∧
      calculate_clinical_score c4cmap c4row = 50 ∧
      calculate_clinical_score c4cmap c4row * 5 = 250) := by
  refine ⟨?_, ?_, ?_, by decide, by decide, by decide⟩
  · intro cmap row r h
    unfold get_variant_classification
    rw [h]
  · intro cmap row h
    unfold get_variant_classification
    rw [h]
    have ha : classifyACMGText "." = none := rfl
    rw [ha]
    cases hc : classifyClinvarText (getColStr cmap "clinvar" row ".") <;> simp [hc]
  · intro cmap row h1 h2
    unfold get_variant_classification
    rw [h1, h2]

/-- Witness for C4 at the concrete scenario row. -/
theorem C4_classifier_fallback_witness :
    get_variant_classification c4cmap c4row =
      (classifyClinvarText (getColStr c4cmap "clinvar" c4row ".")).getD "Unknown" :=
  C4_classifier_fallback.2.1 c4cmap c4row (by decide)

/-- C10: when the resolved ACMG text is present but matches none of the
    five ACMG patterns, the classifier still falls through to the ClinVar
    checks, and Unknown arises only when both texts match no pattern.  The
    row with ACMG text drug response and ClinVar text benign classifies as
    Benign. -/
theorem C10_acmg_fall_through :
    (∀ (cmap : ColumnMap) (row : Row),
      classifyACMGText (getColStr cmap "ACMG" row ".") = none →
      get_variant_classification cmap row =
        (classifyClinvarText (getColStr cmap "clinvar" row ".")).getD "Unknown") ∧
    (classifyACMGText "drug response" = none ∧
      getColStr c4cmap "ACMG" c10row "." = "drug response" ∧
      get_variant_classification c4cmap c10row = "Benign") ∧
    (∀ (cmap : ColumnMap) (row : Row),
      get_variant_classification cmap row = "Unknown" →
        classifyACMGText (getColStr cmap "ACMG" row ".") = none ∧
        classifyClinvarText (getColStr cmap "clinvar" row ".") = none) := by
  refine ⟨?_, ⟨by decide, by decide, by decide⟩, ?_⟩
  · intro cmap row h
    unfold get_variant_classification
    rw [h]
    cases hc : classifyClinvarText (getColStr cmap "clinvar" row ".") <;> simp [hc]
  · intro cmap row h
    unfold get_variant_classification at h
    cases ha : classifyACMGText (getColStr cmap "ACMG" row ".") with
    | some r =>
      rw [ha] at h
      rcases classifyACMGText_range ha with h5 | h5 | h5 | h5 | h5 <;> simp_all
    | none =>
      rw [ha] at h
      cases hc : classifyClinvarText (getColStr cmap "clinvar" row ".") with
      | some r =>
        rw [hc] at h
        rcases classifyClinvarText_range hc with h5 | h5 | h5 | h5 | h5 | h5 <;> simp_all
      | none => exact ⟨rfl, rfl⟩

/-- Witness for C10 at the concrete scenario row. -/
theorem C10_acmg_fall_through_witness :
    get_variant_classification c4cmap c10row =
      (classifyClinvarText (getColStr c4cmap "clinvar" c10row ".")).getD "Unknown" :=
  C10_acmg_fall_through.1 c4cmap c10row (by decide)

/-- C9: for any table and configuration, raising the CADD floor from c1 to
    c2 yields a sublist of the rows retained at the lower floor: it can
    only remove rows, never add rows or change the relative order of the
    retained ones. -/
theorem C9_min_cadd_monotone (cfg : Config) (cmap : ColumnMap) (header : List String)
    (rows : List (List String)) (c1 c2 : PyNum) (h : c1 ≤ c2) :
    applyPrefilters { cfg with min_cadd := c2 } cmap header rows <+
      applyPrefilters { cfg with min_cadd := c1 } cmap header rows := by
  unfold applyPrefilters
  apply stageGenes_sublist
  apply stageBenign_sublist
  apply stageGnomad_sublist
  exact stageCadd_mono h cmap header rows

/-- Witness for C9 at concrete floors 10 and 20 on a concrete table. -/
theorem C9_min_cadd_monotone_witness :
    applyPrefilters { defaultConfig with min_cadd := pyOfInt 20 } c1cmap c1header [c1cells] <+
      applyPrefilters { defaultConfig with min_cadd := pyOfInt 10 } c1cmap c1header [c1cells] :=
  C9_min_cadd_monotone defaultConfig c1cmap c1header [c1cells] (pyOfInt 10) (pyOfInt 20)
    (by decide)

/-- C3: the ranker is a stable descending sort of the scored rows (a
    permutation, pairwise non-increasing on scores, preserving the input
    order of any fixed score value), and a positive configured top N
    truncates the sorted list to its first N entries, strictly after
    sorting. -/
theorem C3_ranker_stable_sort (l : List (List String × Int)) (n : Int) :
    rankScored l ~ l ∧
    (rankScored l).Pairwise (fun a b => b.2 ≤ a.2) ∧
    (∀ s : Int, (rankScored l).filter (fun p => p.2 == s) = l.filter (fun p => p.2 == s)) ∧
    (0 < n → truncTop n (rankScored l) = (rankScored l).take n.toNat) := by
  refine ⟨List.perm_insertionSort scoreDescRel l, List.sorted_insertionSort scoreDescRel l,
    ?_, ?_⟩
  · intro s
    have hpw : (l.filter (fun p => p.2 == s)).Pairwise scoreDescRel := by
      apply List.pairwise_of_forall_mem_list
      intro a ha b hb
      have ha2 : a.2 = s := by simpa using (List.of_mem_filter ha)
      have hb2 : b.2 = s := by simpa using (List.of_mem_filter hb)
      show b.2 ≤ a.2
      omega
    have hsub : l.filter (fun p => p.2 == s) <+ rankScored l :=
      List.sublist_insertionSort hpw (List.filter_sublist l)
    have hsub2 : l.filter (fun p => p.2 == s) <+ (rankScored l).filter (fun p => p.2 == s) := by
      have := hsub.filter (fun p => p.2 == s)
      simpa [List.filter_filter] using this
    have hperm : (rankScored l).filter (fun p => p.2 == s) ~ l.filter (fun p => p.2 == s) :=
      (List.perm_insertionSort scoreDescRel l).filter _
    exact (hsub2.eq_of_length hperm.length_eq.symm).symm
  · intro hn
    unfold truncTop
    split
    · rfl
    · rename_i hcond
      have hlen : (rankScored l).length ≤ n.toNat := by
        rw [not_and] at hcond
        have := hcond hn
        rw [Int.le_toNat (le_of_lt hn)]
        omega
      exact (List.take_of_length_le hlen).symm

/-- Witness for C3 at a concrete scored list and top N of 1. -/
theorem C3_ranker_stable_sort_witness :
    truncTop 1 (rankScored [(["a"], 5), (["b"], 7)]) =
      (rankScored [(["a"], 5), (["b"], 7)]).take (1 : Int).toNat :=
  (C3_ranker_stable_sort [(["a"], 5), (["b"], 7)] 1).2.2.2 (by decide)

/-- C2: every successful run emits the original header in its original
    order followed by exactly the two appended columns, and every emitted
    row is one of the original input rows, its cells verbatim, followed by
    the rendered score and component breakdown; no field value is mutated. -/
theorem C2_output_preserves_columns (t : Table) (cfg : Config) (out : OutTable)
    (h : runModel t cfg = some out) :
    out.header = t.header ++ ["PriorityScore", "ScoreComponents"] ∧
    ∀ r ∈ out.rows, ∃ r0, r0 ∈ t.rows ∧ ∃ s c, r = r0 ++ [s, c] := by
  unfold runModel at h
  split at h
  · exact absurd h (by simp)
  · rw [Option.some.injEq] at h
    subst h
    refine ⟨rfl, ?_⟩
    intro r hr
    simp only [outTable, List.mem_map] at hr
    obtain ⟨p, hp, hre⟩ := hr
    refine ⟨p.1, mem_rankedRows_fst hp,
      toString p.2,
      format_component_scores (componentPairs cfg (theCmap t) (rowAssoc t.header p.1)), ?_⟩
    rw [← hre]
    rfl

/-- Witness for C2 at the concrete C1 table. -/
theorem C2_output_preserves_columns_witness :
    (outTable ⟨c1header, [c1cells]⟩ defaultConfig).header =
      c1header ++ ["PriorityScore", "ScoreComponents"] ∧
    ∀ r ∈ (outTable ⟨c1header, [c1cells]⟩ defaultConfig).rows,
      ∃ r0, r0 ∈ (⟨c1header, [c1cells]⟩ : Table).rows ∧ ∃ s c, r = r0 ++ [s, c] :=
  C2_output_preserves_columns ⟨c1header, [c1cells]⟩ defaultConfig
    (outTable ⟨c1header, [c1cells]⟩ defaultConfig) (by rfl)

/-- C7 counterexample: on an input table with zero data rows, run reports
    failure and main exits with code 1, producing no output table. -/
theorem C7_empty_input_aborts :
    runModel { header := ["ACMG"], rows := [] } defaultConfig = none ∧
    mainExitCode { header := ["ACMG"], rows := [] } defaultConfig = 1 := by
  exact ⟨rfl, rfl⟩

/-- C7 amended: when the input has at least one data row and the
    prefilters leave zero survivors, the run succeeds (exit code 0) with a
    correctly-shaped empty output table; an input with zero data rows
    instead aborts with the failure outcome. -/
theorem C7_empty_survivors_succeed (t : Table) (cfg : Config) (hne : t.rows ≠ [])
    (hsurv : survivors t cfg = []) :
    runModel t cfg =
      some { header := t.header ++ ["PriorityScore", "ScoreComponents"], rows := [] } ∧
    mainExitCode t cfg = 0 := by
  have hiso : t.rows.isEmpty = false := by
    cases htr : t.rows with
    | nil => exact absurd htr hne
    | cons a as => rfl
  have hrun : runModel t cfg = some (outTable t cfg) := by
    simp [runModel, hiso]
  have hout : outTable t cfg =
      { header := t.header ++ ["PriorityScore", "ScoreComponents"], rows := [] } := by
    unfold outTable rankedRows rankScored scoredRows
    rw [hsurv]
    simp [truncTop, List.insertionSort]
  refine ⟨by rw [hrun, hout], ?_⟩
  simp [mainExitCode, hrun]

/-- Witness for the amended C7 on a one-row table emptied by the benign
    exclusion stage. -/
theorem C7_empty_survivors_succeed_witness :
    runModel { header := ["ACMG"], rows := [["Benign"]] } defaultConfig =
      some { header := ["ACMG"] ++ ["PriorityScore", "ScoreComponents"], rows := [] } ∧
    mainExitCode { header := ["ACMG"], rows := [["Benign"]] } defaultConfig = 0 :=
  C7_empty_survivors_succeed { header := ["ACMG"], rows := [["Benign"]] } defaultConfig
    (by decide) (by decide)

/-- C6 counterexample: a resolved field whose cell holds the empty string
    is returned verbatim, not replaced by the default. -/
theorem C6_empty_cell_returned_verbatim :
    getCol [("filter", "FILTER")] "filter" [("FILTER", Cell.str "")] (Cell.str ".") =
      Cell.str "" ∧ Cell.str "" ≠ Cell.str "." := by
  decide

/-- C6 amended: the field lookup is total by construction and returns the
    default whenever the field is unresolved, the bound column is absent
    from the row, or the cell value is the NaN marker; an empty-string
    cell, however, is returned verbatim. -/
theorem C6_get_col_defaults (cmap : ColumnMap) (name : String) (row : Row) (d : Cell) :
    (cmap.lookup name = none → getCol cmap name row d = d) ∧
    (∀ col, cmap.lookup name = some col → row.lookup col = none →
      getCol cmap name row d = d) ∧
    (∀ col, cmap.lookup name = some col → row.lookup col = some Cell.nan →
      getCol cmap name row d = d) :=
  ⟨fun h => by simp [getCol, h],
   fun col h1 h2 => by simp [getCol, h1, h2],
   fun col h1 h2 => by simp [getCol, h1, h2, isna]⟩

/-- Witness for the amended C6 on an unresolved field and an absent column. -/
theorem C6_get_col_defaults_witness :
    getCol [("filter", "FILTER")] "filter" [] (Cell.str ".") = Cell.str "." :=
  (C6_get_col_defaults [("filter", "FILTER")] "filter" [] (Cell.str ".")).2.1
    "FILTER" (by decide) (by decide)

/-- C5 counterexample: two runs on identical input and configuration but
    observing different wall-clock timestamps emit different artifacts,
    because the summary embeds the timestamp in its Date line. -/
theorem C5_summary_embeds_timestamp :
    runArtifacts { header := ["ACMG"], rows := [["Pathogenic"]] } defaultConfig
        "2025-01-01 00:00:00" ≠
      runArtifacts { header := ["ACMG"], rows := [["Pathogenic"]] } defaultConfig
        "2025-01-02 00:00:00" := by
  decide

/-- C5 amended: the prioritized table is byte-identical across runs on the
    same input and configuration regardless of the timestamp, and the full
    artifact set (table plus summary) is byte-identical exactly when the
    two runs record the same timestamp. -/
theorem C5_deterministic_up_to_timestamp (t : Table) (cfg : Config) (now1 now2 : String) :
    (runArtifacts t cfg now1).map Prod.fst = (runArtifacts t cfg now2).map Prod.fst ∧
    (now1 = now2 → runArtifacts t cfg now1 = runArtifacts t cfg now2) := by
  constructor
  · unfold runArtifacts
    split <;> rfl
  · intro h
    rw [h]

/-- Witness for the amended C5 with equal timestamps. -/
theorem C5_deterministic_up_to_timestamp_witness :
    runArtifacts { header := ["ACMG"], rows := [["Pathogenic"]] } defaultConfig
        "2025-01-01 00:00:00" =
      runArtifacts { header := ["ACMG"], rows := [["Pathogenic"]] } defaultConfig
        "2025-01-01 00:00:00" :=
  (C5_deterministic_up_to_timestamp { header := ["ACMG"], rows := [["Pathogenic"]] }
    defaultConfig "2025-01-01 00:00:00" "2025-01-01 00:00:00").2 rfl

/-- Gene values of the C8 counterexample: eleven distinct genes, one
    occurrence each, encountered with Z first. -/
def c8genes : List String := ["Z", "A", "B", "C", "D", "E", "F", "G", "H", "I", "J"]

/-- C8 counterexample: with eleven equally frequent genes the Top Genes
    selection keeps Z, the first encountered, and omits J although J sorts
    before Z alphabetically and both have the same count, so ties are not
    broken alphabetically. -/
theorem C8_tie_break_not_alphabetical :
    ("Z", 1) ∈ topGenesEntries c8genes ∧ ("J", 1) ∉ topGenesEntries c8genes ∧
    c8genes.count "Z" = c8genes.count "J" ∧ pyStrLt "J" "Z" = true := by
  decide

/-- C8 amended: the Top Genes section deterministically displays, in
    ascending alphabetical order and without the missing sentinel, the ten
    pairs selected by descending count with ties broken by first
    encounter; every gene outside the selection has a count at most that
    of every selected gene, and every displayed pair is a genuine counter
    item. -/
theorem C8_top_genes_order (genes : List String) :
    (topGenesEntries genes).Pairwise (fun a b => pyStrLt a.1 b.1 = true ∨ a.1 = b.1) ∧
    (∀ p ∈ most_common 10 (counterItems genes),
      ∀ q ∈ ((counterItems genes).insertionSort countDescRel).drop 10, q.2 ≤ p.2) ∧
    (∀ p ∈ topGenesEntries genes, p ∈ counterItems genes ∧ p.1 ≠ ".") := by
  refine ⟨?_, ?_, ?_⟩
  · have hs : ((most_common 10 (counterItems genes)).insertionSort pairRel).Pairwise pairRel :=
      List.sorted_insertionSort pairRel _
    unfold topGenesEntries
    refine (List.Pairwise.sublist (List.filter_sublist _) hs).imp ?_
    intro a b hab
    rcases hab with h | h
    · exact Or.inl h
    · exact Or.inr h.1
  · intro p hp q hq
    unfold most_common at hp
    have hsort : ((counterItems genes).insertionSort countDescRel).Pairwise countDescRel :=
      List.sorted_insertionSort countDescRel _
    rw [← List.take_append_drop 10 ((counterItems genes).insertionSort countDescRel)] at hsort
    exact (List.pairwise_append.mp hsort).2.2 p hp q hq
  · intro p hp
    unfold topGenesEntries at hp
    have h1 := List.of_mem_filter hp
    have h2 := List.mem_of_mem_filter hp
    have h3 : p ∈ most_common 10 (counterItems genes) :=
      (List.perm_insertionSort pairRel _).subset h2
    unfold most_common at h3
    have h4 : p ∈ (counterItems genes).insertionSort countDescRel :=
      List.take_subset _ _ h3
    exact ⟨(List.perm_insertionSort countDescRel _).subset h4, by simpa using h1⟩

/-- Witness for the amended C8 on a one-gene list. -/
theorem C8_top_genes_order_witness :
    ("A", 1) ∈ counterItems ["A"] ∧ ("A" : String) ≠ "." :=
  (C8_top_genes_order ["A"]).2.2 ("A", 1) (by decide)

end LCVarP
